import Mathlib

/-!
Shallow embedding of the CardifyAI browser extension
(`src/cardify-extension/contentScript.js`, `src/cardify-extension/background.js`
and the background-script revisions in `src/unnamed/part_001`).

The embedding models the pure decision logic of the extension:
  * count clamping and `parseInt`-based prompt handling,
  * selection capture with the input/textarea fallback,
  * `collectFromPage` (selection + prompt to payload),
  * `handleGenerateRequest` (status-code branching of the backend gateway),
  * `openOrFocusTab` (tab reuse / creation),
  * the overlay show/hide DOM operations,
  * the content-script flow `startCardifyFlow` as a trace of effects together
    with the `isRunningCardify` re-entrancy guard.
-/

/-- JavaScript `String.prototype.trim`: strip leading and trailing
whitespace. Defined on the character list so that it evaluates by kernel
reduction. -/
def jsTrim (s : String) : String :=
  ⟨((s.data.dropWhile Char.isWhitespace).reverse.dropWhile Char.isWhitespace).reverse⟩

/-- JavaScript `String.prototype.startsWith`. Defined on the character
list so that it evaluates by kernel reduction. -/
def strStartsWith (s p : String) : Bool :=
  p.data.isPrefixOf s.data

/-- `const CARDIFY_BASE = "https://cardifylabs.com"` (background.js line 4). -/
def CARDIFY_BASE : String := "https://cardifylabs.com"

/-- URL resolution of `openOrFocusTab` / `openOrFocus` (background.js lines 11-13):
`pathOrUrl.startsWith("http") ? pathOrUrl
 : CARDIFY_BASE + (pathOrUrl.startsWith("/") ? pathOrUrl : "/" + pathOrUrl)`. -/
def resolveUrl (pathOrUrl : String) : String :=
  if strStartsWith pathOrUrl "http" then pathOrUrl
  else CARDIFY_BASE ++ (if strStartsWith pathOrUrl "/" then pathOrUrl else "/" ++ pathOrUrl)

/-- The clamp applied to the parsed card count
(contentScript.js lines 291-292, background.js lines 219-220):
`if (n < 1) n = 1; if (n > 200) n = 200;`. -/
def clampCount (n : Int) : Int :=
  if n < 1 then 1 else if n > 200 then 200 else n

/-- Numeric value of a list of decimal digit characters. -/
def digitsVal (ds : List Char) : Nat :=
  ds.foldl (fun acc c => acc * 10 + (c.toNat - 48)) 0

/-- JavaScript `parseInt(s, 10)` on an already-trimmed string: an optional
sign followed by a maximal run of decimal digits; `none` models `NaN`
(no digits), which is precisely the case `Number.isFinite` rejects. -/
def parseIntB10 (s : String) : Option Int :=
  let cs := s.data
  let signed : Int × List Char :=
    match cs with
    | '-' :: r => (-1, r)
    | '+' :: r => (1, r)
    | r => (1, r)
  let ds := signed.2.takeWhile Char.isDigit
  if ds.isEmpty then none else some (signed.1 * (digitsVal ds : Int))

/-- JavaScript `x || d` for a string field of a parsed JSON body:
`undefined`/missing and the empty string are falsy and fall through to `d`. -/
def jsOrStr (x : Option String) (d : String) : String :=
  match x with
  | some s => if s = "" then d else s
  | none => d

/-- The in-page prompt handler shared by the background revisions
(background.js lines 209-222, part_001 lines 88-101):
cancel (`null`), an all-whitespace answer and a non-numeric answer all
yield `none`; otherwise the parsed value is clamped to `[1, 200]`. -/
def promptToCount (v : Option String) : Option Int :=
  match v with
  | none => none
  | some s =>
    let t := jsTrim s
    if t = "" then none
    else
      match parseIntB10 t with
      | none => none
      | some n => some (clampCount n)

/-- `getSelectedText` (contentScript.js lines 184-212, and the function
injected by background.js `collectFromPage`, lines 154-182):
the window selection, falling back to the focused text field's selected
substring when the window selection is empty or whitespace-only, the
result trimmed. `fieldSel = none` models the absence of a focused
text-capable input/textarea. -/
def getSelectedTextModel (winSel : String) (fieldSel : Option String) : String :=
  let s := winSel
  let s :=
    if jsTrim s = "" then
      match fieldSel with
      | some f => f
      | none => s
    else s
  jsTrim s

/-- The request payload `{ text, num_cards }` built by `collectFromPage`. -/
structure Payload where
  text : String
  num_cards : Int
deriving DecidableEq, Repr

/-- The fields the extension reads from a parsed JSON response body:
`data.redirect_url` and `data.deck_url` (`none` = absent or not a string). -/
structure RespBody where
  redirect_url : Option String
  deck_url : Option String
deriving DecidableEq, Repr

/-- An HTTP response as seen by `handleGenerateRequest`: a status code and
a body; `body = none` models a body whose JSON parsing throws (the code's
`try { data = await resp.json() } catch { data = {} }`). -/
structure HttpResp where
  status : Nat
  body : Option RespBody
deriving DecidableEq, Repr

/-- `resp.ok`: status in the 2xx range (fetch: 200..299). -/
def respOk (status : Nat) : Bool :=
  200 ≤ status && status ≤ 299

/-- The classified result of one backend call (the `reason` strings of the
code: `no_text`, `not_logged_in`, `billing_required`, `server_error`,
`network_error`, and `ok: true` with its `redirectUrl`). -/
inductive GenOutcome where
  | noText
  | notLoggedIn
  | billingRequired (status : Nat)
  | serverError (status : Nat)
  | networkError
  | success (redirectUrl : String)
deriving DecidableEq, Repr

/-- A browser tab (id, current URL, owning window). -/
structure Tab where
  id : Nat
  url : String
  windowId : Nat
  active : Bool
deriving DecidableEq, Repr

/-- Result of `openOrFocusTab`: the updated tab list, whether a new tab was
created, the absolute URL navigated to, the id of the tab that now shows it,
and the window brought to focus (reuse case only). -/
structure NavResult where
  tabs : List Tab
  created : Bool
  navUrl : String
  targetId : Nat
  focusedWindow : Option Nat
deriving DecidableEq, Repr

/-- `chrome.tabs.query({ url: CARDIFY_BASE + "/*" })` membership test:
the tab's URL is under the fixed Cardify origin. -/
def isCardifyTab (t : Tab) : Bool :=
  strStartsWith t.url (CARDIFY_BASE ++ "/")

/-- `openOrFocusTab` (background.js lines 10-29) / `openOrFocus`
(part_001 lines 1215-1230): resolve the target against the fixed origin,
reuse the first already-open tab on that origin (updating its URL,
activating it and focusing its window), otherwise create one new tab.
`freshId` stands for the id the browser assigns to a newly created tab. -/
def openOrFocusTab (pathOrUrl : String) (tabs : List Tab) (freshId : Nat) : NavResult :=
  let url := resolveUrl pathOrUrl
  match tabs.find? isCardifyTab with
  | some t =>
    { tabs := tabs.map fun u =>
        if u.id = t.id then { u with url := url, active := true } else u
      created := false
      navUrl := url
      targetId := t.id
      focusedWindow := some t.windowId }
  | none =>
    { tabs := tabs ++ [⟨freshId, url, 0, true⟩]
      created := true
      navUrl := url
      targetId := freshId
      focusedWindow := none }

/-- What one call of the backend gateway produced: the outcome, whether the
HTTP request was actually issued (`fetch` reached), and the absolute URLs
navigated to via `openOrFocusTab`. -/
structure GenResult where
  outcome : GenOutcome
  fetched : Bool
  navUrls : List String
deriving DecidableEq, Repr

/-- `handleGenerateRequest` (part_001 lines 123-197): short-circuit on an
empty/whitespace `payload.text` before any request; otherwise branch on the
response status (`fetchResult = none` models `fetch` throwing / no
response). Navigation is performed through `openOrFocusTab` on `tabs`. -/
def handleGenerateRequest (payload : Payload) (fetchResult : Option HttpResp)
    (tabs : List Tab) (freshId : Nat) : GenResult × List Tab :=
  if jsTrim payload.text = "" then
    (⟨.noText, false, []⟩, tabs)
  else
    match fetchResult with
    | none => (⟨.networkError, true, []⟩, tabs)
    | some resp =>
      if resp.status = 401 then
        let nav := openOrFocusTab "/auth/login?next=/dashboard" tabs freshId
        (⟨.notLoggedIn, true, [nav.navUrl]⟩, nav.tabs)
      else if resp.status = 402 || resp.status = 403 then
        let data := resp.body.getD ⟨none, none⟩
        let redirectUrl := jsOrStr data.redirect_url "/billing/portal"
        let nav := openOrFocusTab redirectUrl tabs freshId
        (⟨.billingRequired resp.status, true, [nav.navUrl]⟩, nav.tabs)
      else if !respOk resp.status then
        (⟨.serverError resp.status, true, []⟩, tabs)
      else
        let data := resp.body.getD ⟨none, none⟩
        let redirectUrl := jsOrStr data.redirect_url (jsOrStr data.deck_url "/dashboard")
        let nav := openOrFocusTab redirectUrl tabs freshId
        (⟨.success redirectUrl, true, [nav.navUrl]⟩, nav.tabs)

/-- Result of `collectFromPage`: the payload (`none` = user cancelled or
no selection), whether the "please highlight" alert was shown, and whether
the count prompt was shown. -/
structure CollectResult where
  payload : Option Payload
  alerted : Bool
  prompted : Bool
deriving DecidableEq, Repr

/-- `collectFromPage` (background.js lines 146-241; the part_001 revision,
lines 57-115, is this with `fieldSel = none`): use the context-menu
selection override when non-empty, otherwise read the page selection; an
empty result shows the "please highlight some text first" alert and aborts;
otherwise the count prompt runs and its answer is processed by
`promptToCount`. -/
def collectFromPage (selectionOverride winSel : String) (fieldSel : Option String)
    (promptRes : Option String) : CollectResult :=
  let selectedText :=
    if selectionOverride ≠ "" then selectionOverride
    else getSelectedTextModel winSel fieldSel
  if selectedText = "" then
    ⟨none, true, false⟩
  else
    match promptToCount promptRes with
    | none => ⟨none, false, true⟩
    | some n => ⟨some ⟨selectedText, n⟩, false, true⟩

/-- Result of one run of the POST-then-navigate flow. -/
structure FlowPost where
  alertedNoText : Bool
  prompted : Bool
  gatewayCalled : Bool
  result : Option GenResult
  tabs : List Tab
deriving DecidableEq, Repr

/-- `startCardifyFlow` of the POST-then-navigate revision (part_001 lines
209-230, entry points lines 289-310): reject non-http tabs, collect the
payload (the context-menu entry passes `(info.selectionText || "").trim()`
as `jsTrim rawOverride`), and call `handleGenerateRequest` only when
collection produced a payload. -/
def startCardifyFlowPost (tabUrl rawOverride winSel : String) (fieldSel : Option String)
    (promptRes : Option String) (fetchResult : Option HttpResp)
    (tabs : List Tab) (freshId : Nat) : FlowPost :=
  if !strStartsWith tabUrl "http" then
    ⟨false, false, false, none, tabs⟩
  else
    let cr := collectFromPage (jsTrim rawOverride) winSel fieldSel promptRes
    match cr.payload with
    | none => ⟨cr.alerted, cr.prompted, false, none, tabs⟩
    | some p =>
      let r := handleGenerateRequest p fetchResult tabs freshId
      ⟨cr.alerted, cr.prompted, true, some r.1, r.2⟩

/-- One overlay DOM element with the id looked up by the overlay code:
its message text, whether it is displayed, and the error border state. -/
structure OverlayEl where
  msg : String
  display : Bool
  errBorder : Bool
deriving DecidableEq, Repr

/-- `showOverlay` (contentScript.js lines 93-167): `getElementById` returns
the first element with the overlay id; if none exists one is created;
then the message text, `display: flex` and the error border color are set
on that element. The DOM is the list of elements carrying the overlay id. -/
def showOverlay (text : String) (isError : Bool) (dom : List OverlayEl) : List OverlayEl :=
  match dom with
  | [] => [⟨text, true, isError⟩]
  | _ :: rest => ⟨text, true, isError⟩ :: rest

/-- `hideOverlay` (contentScript.js lines 172-177): if an overlay element
is present, set `display: none` on the first one; otherwise do nothing. -/
def hideOverlay (dom : List OverlayEl) : List OverlayEl :=
  match dom with
  | [] => []
  | e :: rest => { e with display := false } :: rest

/-- `showLoadingOverlay` (background.js lines 35-97): create the overlay
element if absent, then set the text node's content. -/
def showLoadingOverlay (msg : String) (dom : List OverlayEl) : List OverlayEl :=
  match dom with
  | [] => [⟨msg, true, false⟩]
  | e :: rest => { e with msg := msg } :: rest

/-- `removeLoadingOverlay` (background.js lines 122-136): remove the
overlay element if present, otherwise do nothing. -/
def removeLoadingOverlay (dom : List OverlayEl) : List OverlayEl :=
  match dom with
  | [] => []
  | _ :: rest => rest

/-- The default string pre-filled into the count prompt
(contentScript.js lines 247-257): the stored `lastCardCount` when it is a
finite number with `0 < n ≤ 200`, the literal `"20"` otherwise (absent,
unreadable, or out of range). -/
def defaultCountStr (stored : Option Int) : String :=
  match stored with
  | some n => if 0 < n && n ≤ 200 then toString n else "20"
  | none => "20"

/-- Observable effects of the content-script flow, in program order. -/
inductive CEffect where
  | alertMsg (msg : String)
  | overlayShow (msg : String) (isError : Bool)
  | overlayHide
  | storageRead
  | promptShow (promptDefault : String)
  | storageWrite (n : Int)
  | sendGenerate (text : String) (numCards : Int)
deriving DecidableEq, Repr

/-- Environment of one invocation of the content-script flow:
the guard at entry, the selection sources, the stored `lastCardCount`
(`none` = absent, unreadable or non-numeric), the prompt answer
(`none` = cancel), and whether an unexpected exception is thrown inside
the `try` block (modelled as thrown during selection capture). -/
structure CEnv where
  running : Bool
  winSel : String
  fieldSel : Option String
  stored : Option Int
  promptRes : Option String
  captureThrows : Bool
deriving DecidableEq, Repr

/-- `startCardifyFlow` (contentScript.js lines 222-393) as a trace of
effects plus the final value of the `isRunningCardify` guard. A second
invocation while the guard is set returns immediately with no effects
(line 223-226). Otherwise the guard is set, the `try` body runs (an
uncaught exception routes through the `catch` alert + `hideOverlay`,
lines 383-389), and the `finally` clears the guard (lines 390-392). -/
def contentFlow (env : CEnv) : List CEffect × Bool :=
  if env.running then
    ([], true)
  else
    let tr :=
      if env.captureThrows then
        [CEffect.alertMsg "CardifyAI: Unexpected error occurred. Please try again.",
         CEffect.overlayHide]
      else
        let selectedText := getSelectedTextModel env.winSel env.fieldSel
        if selectedText = "" then
          [CEffect.alertMsg "CardifyAI: Please highlight some text first."]
        else
          let pre := [CEffect.overlayShow "Preparing your selection…" false,
                      CEffect.storageRead,
                      CEffect.promptShow (defaultCountStr env.stored)]
          match env.promptRes with
          | none => pre ++ [CEffect.overlayHide]
          | some v =>
            let countStr := jsTrim v
            if countStr = "" then
              pre ++ [CEffect.alertMsg "CardifyAI: Please enter a number between 1 and 200.",
                      CEffect.overlayHide]
            else
              match parseIntB10 countStr with
              | none =>
                pre ++ [CEffect.alertMsg "CardifyAI: Please enter a valid number.",
                        CEffect.overlayHide]
              | some n =>
                let num := clampCount n
                pre ++ [CEffect.storageWrite num,
                        CEffect.overlayShow
                          "Contacting CardifyAI and generating your flashcards…" false,
                        CEffect.sendGenerate selectedText num]
    (tr, false)

/-- Helper: `parseIntB10` fails on the empty string. -/
lemma parseIntB10_empty : parseIntB10 "" = none := by decide

/-- Helper: the URL actually navigated to by `openOrFocusTab` is the
resolved target, in both the reuse and the create branch. -/
lemma openOrFocusTab_navUrl (p : String) (tabs : List Tab) (f : Nat) :
    (openOrFocusTab p tabs f).navUrl = resolveUrl p := by
  unfold openOrFocusTab
  cases tabs.find? isCardifyTab <;> simp

/-- C1: for every integer n parsed from the count dialog, the value stored
and used is 1 if n < 1, 200 if n > 200, and n otherwise; boundary values
0 ↦ 1, 201 ↦ 200, 1 ↦ 1, 200 ↦ 200; and the prompt handler returns exactly
the clamped parse result. -/
theorem count_clamp_spec :
    (∀ n : Int, (n < 1 → clampCount n = 1) ∧ (n > 200 → clampCount n = 200) ∧
      (1 ≤ n → n ≤ 200 → clampCount n = n)) ∧
    clampCount 0 = 1 ∧ clampCount 201 = 200 ∧ clampCount 1 = 1 ∧ clampCount 200 = 200 ∧
    (∀ (s : String) (n : Int), parseIntB10 (jsTrim s) = some n →
      promptToCount (some s) = some (clampCount n)) := by
  refine ⟨fun n => ⟨fun h => ?_, fun h => ?_, fun h1 h2 => ?_⟩, by decide, by decide, by decide, by decide, fun s n h => ?_⟩
  · simp [clampCount, h]
  · simp [clampCount, h]
    omega
  · simp [clampCount]
    omega
  · have ht : jsTrim s ≠ "" := by
      intro he
      rw [he, parseIntB10_empty] at h
      exact Option.noConfusion h
    simp [promptToCount, ht, h]

/-- C1 witness: the clamp at concrete inputs, and a concrete prompt
answer "250" that is parsed and clamped to 200. -/
theorem count_clamp_spec_witness :
    clampCount (-5) = 1 ∧ clampCount 250 = 200 ∧ clampCount 42 = 42 ∧
    promptToCount (some " 250 ") = some 200 := by
  refine ⟨((count_clamp_spec.1 (-5)).1 (by decide)),
          ((count_clamp_spec.1 250).2.1 (by decide)),
          ((count_clamp_spec.1 42).2.2 (by decide) (by decide)), ?_⟩
  have h := count_clamp_spec.2.2.2.2.2 " 250 " 250 (by decide)
  rw [h]
  decide

/-- C10: tab-navigator URL resolution: an input starting with "http" is
used unchanged; otherwise the result is the fixed origin plus the input
with a "/" inserted exactly when the input does not already begin with
one; "/billing/portal" and "billing/portal" resolve identically. -/
theorem resolve_url_spec :
    (∀ s : String,
      (strStartsWith s "http" = true → resolveUrl s = s) ∧
      (strStartsWith s "http" = false → strStartsWith s "/" = true →
        resolveUrl s = CARDIFY_BASE ++ s) ∧
      (strStartsWith s "http" = false → strStartsWith s "/" = false →
        resolveUrl s = CARDIFY_BASE ++ ("/" ++ s))) ∧
    resolveUrl "/billing/portal" = resolveUrl "billing/portal" ∧
    resolveUrl "/billing/portal" = "https://cardifylabs.com/billing/portal" := by
  refine ⟨fun s => ⟨fun h => ?_, fun h1 h2 => ?_, fun h1 h2 => ?_⟩, by decide, by decide⟩
  · simp [resolveUrl, h]
  · simp [resolveUrl, h1, h2]
  · simp [resolveUrl, h1, h2]

/-- C10 witness: resolution at the concrete inputs of the claim. -/
theorem resolve_url_spec_witness :
    resolveUrl "https://cardifylabs.com/deck/1" = "https://cardifylabs.com/deck/1" ∧
    resolveUrl "/billing/portal" = CARDIFY_BASE ++ "/billing/portal" ∧
    resolveUrl "billing/portal" = CARDIFY_BASE ++ ("/" ++ "billing/portal") :=
  ⟨(resolve_url_spec.1 "https://cardifylabs.com/deck/1").1 (by decide),
   (resolve_url_spec.1 "/billing/portal").2.1 (by decide) (by decide),
   (resolve_url_spec.1 "billing/portal").2.2 (by decide) (by decide)⟩

/-- C9: overlay idempotence: from a DOM with at most one overlay element,
two hides in a row, or two shows in a row with different messages, leave at
most one overlay element (for both the content-script overlay and the
background loading overlay); a show on an existing overlay updates the
element in place without changing the element count; a hide on an empty
DOM is a no-op. -/
theorem overlay_idempotent_spec :
    ∀ (dom : List OverlayEl) (m1 m2 : String) (e1 e2 : Bool),
      dom.length ≤ 1 →
      ((showOverlay m2 e2 (showOverlay m1 e1 dom)).length ≤ 1 ∧
       (hideOverlay (hideOverlay dom)).length ≤ 1 ∧
       (showLoadingOverlay m2 (showLoadingOverlay m1 dom)).length ≤ 1 ∧
       (removeLoadingOverlay (removeLoadingOverlay dom)).length ≤ 1) ∧
      (dom ≠ [] →
        (showOverlay m1 e1 dom).length = dom.length ∧
        (showOverlay m1 e1 dom).head? = some ⟨m1, true, e1⟩ ∧
        (showLoadingOverlay m1 dom).length = dom.length) ∧
      hideOverlay [] = [] ∧ removeLoadingOverlay ([] : List OverlayEl) = [] := by
  intro dom m1 m2 e1 e2 hlen
  match dom with
  | [] => simp [showOverlay, hideOverlay, showLoadingOverlay, removeLoadingOverlay]
  | e :: rest =>
    simp [List.length_cons] at hlen
    subst hlen
    simp [showOverlay, hideOverlay, showLoadingOverlay, removeLoadingOverlay]

/-- C9 witness: the overlay operations at a concrete one-element DOM. -/
theorem overlay_idempotent_spec_witness :
    (showOverlay "b" false (showOverlay "a" true [⟨"x", true, false⟩])).length ≤ 1 ∧
    (hideOverlay (hideOverlay [⟨"x", true, false⟩])).length ≤ 1 ∧
    (showOverlay "a" true [⟨"x", true, false⟩]).head? = some ⟨"a", true, true⟩ := by
  have h := overlay_idempotent_spec [⟨"x", true, false⟩] "a" "b" true false (by decide)
  exact ⟨h.1.1, h.1.2.1, (h.2.1 (by decide)).2.1⟩

/-- C4: a 402 or 403 response yields the billing_required outcome and
navigates to the body-provided redirect_url when a non-empty one is
present, to the default /billing/portal when the body provides none, and a
malformed-JSON body is treated as an empty object and likewise falls to
the default (while keeping the billing_required outcome). -/
theorem billing_redirect_spec :
    ∀ (p : Payload) (st : Nat) (tabs : List Tab) (freshId : Nat),
      jsTrim p.text ≠ "" → (st = 402 ∨ st = 403) →
      (∀ b : Option RespBody,
        (handleGenerateRequest p (some ⟨st, b⟩) tabs freshId).1.outcome
          = .billingRequired st ∧
        (handleGenerateRequest p (some ⟨st, b⟩) tabs freshId).1.fetched = true) ∧
      (∀ (r : String) (dk : Option String), r ≠ "" →
        (handleGenerateRequest p (some ⟨st, some ⟨some r, dk⟩⟩) tabs freshId).1.navUrls
          = [resolveUrl r]) ∧
      ((handleGenerateRequest p (some ⟨st, none⟩) tabs freshId).1.navUrls
          = [resolveUrl "/billing/portal"]) ∧
      (∀ dk : Option String,
        (handleGenerateRequest p (some ⟨st, some ⟨none, dk⟩⟩) tabs freshId).1.navUrls
          = [resolveUrl "/billing/portal"]) ∧
      resolveUrl "/billing/custom" = "https://cardifylabs.com/billing/custom" := by
  intro p st tabs freshId hp hst
  have h401 : st ≠ 401 := by rcases hst with h | h <;> omega
  have h4023 : (st = 402 || st = 403) = true := by
    rcases hst with h | h <;> simp [h]
  refine ⟨fun b => ?_, fun r dk hr => ?_, ?_, fun dk => ?_, by decide⟩
  · simp [handleGenerateRequest, hp, h401, h4023]
  · simp [handleGenerateRequest, hp, h401, h4023, jsOrStr, hr, openOrFocusTab_navUrl]
  · simp [handleGenerateRequest, hp, h401, h4023, jsOrStr, openOrFocusTab_navUrl]
  · simp [handleGenerateRequest, hp, h401, h4023, jsOrStr, openOrFocusTab_navUrl]

/-- C4 witness: a concrete 403 with body redirect_url "/billing/custom"
navigates there, and a concrete malformed body falls to /billing/portal. -/
theorem billing_redirect_spec_witness :
    (handleGenerateRequest ⟨"hello", 20⟩ (some ⟨403, some ⟨some "/billing/custom", none⟩⟩) [] 0).1.navUrls
      = [resolveUrl "/billing/custom"] ∧
    (handleGenerateRequest ⟨"hello", 20⟩ (some ⟨403, none⟩) [] 0).1.navUrls
      = [resolveUrl "/billing/portal"] ∧
    (handleGenerateRequest ⟨"hello", 20⟩ (some ⟨403, none⟩) [] 0).1.outcome
      = .billingRequired 403 := by
  have h := billing_redirect_spec ⟨"hello", 20⟩ 403 [] 0 (by decide) (Or.inr rfl)
  exact ⟨h.2.1 "/billing/custom" none (by decide), h.2.2.1, (h.1 none).1⟩

/-- C5: a 401 response yields the not_logged_in outcome and navigates to
the login path with the dashboard as post-login destination, regardless of
the response body. -/
theorem auth_redirect_spec :
    ∀ (p : Payload) (b : Option RespBody) (tabs : List Tab) (freshId : Nat),
      jsTrim p.text ≠ "" →
      (handleGenerateRequest p (some ⟨401, b⟩) tabs freshId).1
        = ⟨.notLoggedIn, true, ["https://cardifylabs.com/auth/login?next=/dashboard"]⟩ := by
  intro p b tabs freshId hp
  have : resolveUrl "/auth/login?next=/dashboard"
      = "https://cardifylabs.com/auth/login?next=/dashboard" := by decide
  simp [handleGenerateRequest, hp, openOrFocusTab_navUrl, this]

/-- C5 witness: a concrete 401 with a body that even carries a
redirect_url still goes to the login path. -/
theorem auth_redirect_spec_witness :
    (handleGenerateRequest ⟨"hello", 20⟩ (some ⟨401, some ⟨some "/elsewhere", some "/d"⟩⟩) [] 0).1
      = ⟨.notLoggedIn, true, ["https://cardifylabs.com/auth/login?next=/dashboard"]⟩ :=
  auth_redirect_spec ⟨"hello", 20⟩ (some ⟨some "/elsewhere", some "/d"⟩) [] 0 (by decide)

/-- C6: a 2xx response with body redirect_url "/deck/42" yields success and
navigates to https://cardifylabs.com/deck/42; when the body provides
neither redirect_url nor deck_url (including a malformed body) navigation
defaults to the dashboard path; and the tab navigator reuses the first
already-open tab on the origin (no new tab, same tab count, that tab's
window focused) when one exists, otherwise creates exactly one new tab. -/
theorem success_navigation_spec :
    ∀ (p : Payload) (st : Nat) (tabs : List Tab) (freshId : Nat),
      jsTrim p.text ≠ "" → 200 ≤ st → st ≤ 299 →
      (∀ dk : Option String,
        (handleGenerateRequest p (some ⟨st, some ⟨some "/deck/42", dk⟩⟩) tabs freshId).1
          = ⟨.success "/deck/42", true, ["https://cardifylabs.com/deck/42"]⟩) ∧
      ((handleGenerateRequest p (some ⟨st, some ⟨none, none⟩⟩) tabs freshId).1.navUrls
          = [resolveUrl "/dashboard"]) ∧
      ((handleGenerateRequest p (some ⟨st, none⟩) tabs freshId).1.navUrls
          = [resolveUrl "/dashboard"]) ∧
      (∀ (url : String) (t : Tab), tabs.find? isCardifyTab = some t →
        (openOrFocusTab url tabs freshId).created = false ∧
        (openOrFocusTab url tabs freshId).tabs.length = tabs.length ∧
        (openOrFocusTab url tabs freshId).targetId = t.id ∧
        (openOrFocusTab url tabs freshId).focusedWindow = some t.windowId) ∧
      (∀ url : String, tabs.find? isCardifyTab = none →
        (openOrFocusTab url tabs freshId).created = true ∧
        (openOrFocusTab url tabs freshId).tabs.length = tabs.length + 1) := by
  intro p st tabs freshId hp h1 h2
  have h401 : st ≠ 401 := by omega
  have h402 : st ≠ 402 := by omega
  have h403 : st ≠ 403 := by omega
  have hok : respOk st = true := by simp [respOk]; omega
  have hdash : resolveUrl "/deck/42" = "https://cardifylabs.com/deck/42" := by decide
  refine ⟨fun dk => ?_, ?_, ?_, fun url t ht => ?_, fun url ht => ?_⟩
  · simp [handleGenerateRequest, hp, h401, h402, h403, hok, jsOrStr,
      openOrFocusTab_navUrl, hdash]
  · simp [handleGenerateRequest, hp, h401, h402, h403, hok, jsOrStr, openOrFocusTab_navUrl]
  · simp [handleGenerateRequest, hp, h401, h402, h403, hok, jsOrStr, openOrFocusTab_navUrl]
  · simp [openOrFocusTab, ht]
  · simp [openOrFocusTab, ht]

/-- C6 witness: a concrete 200 response with redirect_url "/deck/42",
one already-open Cardify tab (reused, still one tab), and no open Cardify
tab (exactly one created). -/
theorem success_navigation_spec_witness :
    (handleGenerateRequest ⟨"hello", 20⟩ (some ⟨200, some ⟨some "/deck/42", none⟩⟩)
        [⟨3, "https://cardifylabs.com/dashboard", 1, false⟩] 9).1
      = ⟨.success "/deck/42", true, ["https://cardifylabs.com/deck/42"]⟩ ∧
    (openOrFocusTab "/deck/42" [⟨3, "https://cardifylabs.com/dashboard", 1, false⟩] 9).tabs.length = 1 ∧
    (openOrFocusTab "/deck/42" [⟨3, "https://cardifylabs.com/dashboard", 1, false⟩] 9).created = false ∧
    (openOrFocusTab "/deck/42" [⟨7, "https://other.com/x", 1, false⟩] 9).tabs.length = 2 ∧
    (openOrFocusTab "/deck/42" [⟨7, "https://other.com/x", 1, false⟩] 9).created = true := by
  have h := success_navigation_spec ⟨"hello", 20⟩ 200
      [⟨3, "https://cardifylabs.com/dashboard", 1, false⟩] 9 (by decide) (by decide) (by decide)
  have h2 := success_navigation_spec ⟨"hello", 20⟩ 200
      [⟨7, "https://other.com/x", 1, false⟩] 9 (by decide) (by decide) (by decide)
  have hfind : ([⟨3, "https://cardifylabs.com/dashboard", 1, false⟩] : List Tab).find? isCardifyTab
      = some ⟨3, "https://cardifylabs.com/dashboard", 1, false⟩ := by decide
  have hfind2 : ([⟨7, "https://other.com/x", 1, false⟩] : List Tab).find? isCardifyTab = none := by decide
  have hr := h.2.2.2.1 "/deck/42" ⟨3, "https://cardifylabs.com/dashboard", 1, false⟩ hfind
  have hc := h2.2.2.2.2 "/deck/42" hfind2
  exact ⟨h.1 none, by simpa using hr.2.1, hr.1, by simpa using hc.2, hc.1⟩

/-- Helper: the captured selection is empty whenever all selection sources
trim to empty. -/
lemma getSelectedTextModel_empty (winSel : String) (fieldSel : Option String)
    (hw : jsTrim winSel = "") (hf : ∀ f, fieldSel = some f → jsTrim f = "") :
    getSelectedTextModel winSel fieldSel = "" := by
  unfold getSelectedTextModel
  simp [hw]
  cases fieldSel with
  | none => simpa using hw
  | some f => simpa using hf f rfl

/-- C2: when every selection source is empty or whitespace-only, the
POST-then-navigate flow stops at the "please highlight text" alert and
never invokes the backend gateway; and independently, a payload whose text
trims to empty short-circuits `handleGenerateRequest` to the no_text
outcome with no HTTP request issued and no navigation. -/
theorem no_text_short_circuit_spec :
    (∀ (tabUrl rawOverride winSel : String) (fieldSel : Option String)
        (promptRes : Option String) (fetch : Option HttpResp) (tabs : List Tab) (freshId : Nat),
      strStartsWith tabUrl "http" = true →
      jsTrim rawOverride = "" → jsTrim winSel = "" →
      (∀ f, fieldSel = some f → jsTrim f = "") →
      startCardifyFlowPost tabUrl rawOverride winSel fieldSel promptRes fetch tabs freshId
        = ⟨true, false, false, none, tabs⟩) ∧
    (∀ (p : Payload) (fetch : Option HttpResp) (tabs : List Tab) (freshId : Nat),
      jsTrim p.text = "" →
      handleGenerateRequest p fetch tabs freshId = (⟨.noText, false, []⟩, tabs)) := by
  constructor
  · intro tabUrl rawOverride winSel fieldSel promptRes fetch tabs freshId htab hov hw hf
    have hsel := getSelectedTextModel_empty winSel fieldSel hw hf
    simp [startCardifyFlowPost, htab, collectFromPage, hov, hsel]
  · intro p fetch tabs freshId hp
    simp [handleGenerateRequest, hp]

/-- C2 witness: a concrete whitespace-only selection aborts at the alert
with the gateway never called, and a concrete whitespace payload yields
no_text without fetching. -/
theorem no_text_short_circuit_spec_witness :
    startCardifyFlowPost "https://a.com/page" " " "  " (some " \t ") none
        (some ⟨200, none⟩) [] 0 = ⟨true, false, false, none, []⟩ ∧
    handleGenerateRequest ⟨"  ", 20⟩ (some ⟨200, none⟩) [] 0 = (⟨.noText, false, []⟩, []) := by
  constructor
  · exact no_text_short_circuit_spec.1 "https://a.com/page" " " "  " (some " \t ") none
      (some ⟨200, none⟩) [] 0 (by decide) (by decide) (by decide)
      (by intro f hfeq; cases hfeq; decide)
  · exact no_text_short_circuit_spec.2 ⟨"  ", 20⟩ (some ⟨200, none⟩) [] 0 (by decide)

/-- C3: the re-entrancy guard: any invocation that starts with the guard
clear ends with the guard clear again (success, cancellation, invalid
input, and the uncaught-exception path all included) after actually
running (non-empty effect trace); and an invocation that starts while the
guard is set is dropped with no effects and leaves the guard set. -/
theorem reentrancy_guard_spec :
    (∀ env : CEnv, env.running = false →
      (contentFlow env).2 = false ∧ (contentFlow env).1 ≠ []) ∧
    (∀ env : CEnv, env.running = true → contentFlow env = ([], true)) := by
  constructor
  · intro env h
    refine ⟨by simp [contentFlow, h], ?_⟩
    by_cases hc : env.captureThrows
    · simp [contentFlow, h, hc]
    · by_cases hs : getSelectedTextModel env.winSel env.fieldSel = ""
      · simp [contentFlow, h, hc, hs]
      · rcases hpr : env.promptRes with _ | v
        · simp [contentFlow, h, hc, hs, hpr]
        · by_cases hv : jsTrim v = ""
          · simp [contentFlow, h, hc, hs, hpr, hv]
          · rcases hn : parseIntB10 (jsTrim v) with _ | n
            · simp [contentFlow, h, hc, hs, hpr, hv, hn]
            · simp [contentFlow, h, hc, hs, hpr, hv, hn]
  · intro env h
    simp [contentFlow, h]

/-- C3 witness: a cancelled flow at a concrete environment ends with the
guard clear, and a concrete second invocation while the guard is set is
dropped with no effects. -/
theorem reentrancy_guard_spec_witness :
    ((contentFlow ⟨false, "hi", none, none, none, false⟩).2 = false ∧
     (contentFlow ⟨false, "hi", none, none, none, false⟩).1 ≠ []) ∧
    contentFlow ⟨true, "hi", none, none, none, false⟩ = ([], true) :=
  ⟨reentrancy_guard_spec.1 ⟨false, "hi", none, none, none, false⟩ rfl,
   reentrancy_guard_spec.2 ⟨true, "hi", none, none, none, false⟩ rfl⟩

/-- C7: cancelling the count dialog (selection present, prompt answered
with cancel) terminates the flow with no write to the preference store, no
message to the backend, no alert, and no error overlay. -/
theorem cancel_silent_spec :
    ∀ env : CEnv, env.running = false → env.captureThrows = false →
      getSelectedTextModel env.winSel env.fieldSel ≠ "" →
      env.promptRes = none →
      (∀ k : Int, CEffect.storageWrite k ∉ (contentFlow env).1) ∧
      (∀ (t : String) (c : Int), CEffect.sendGenerate t c ∉ (contentFlow env).1) ∧
      (∀ m : String, CEffect.alertMsg m ∉ (contentFlow env).1) ∧
      (∀ m : String, CEffect.overlayShow m true ∉ (contentFlow env).1) := by
  intro env h hc hs hp
  have htr : (contentFlow env).1
      = [CEffect.overlayShow "Preparing your selection…" false, CEffect.storageRead,
         CEffect.promptShow (defaultCountStr env.stored), CEffect.overlayHide] := by
    simp [contentFlow, h, hc, hs, hp]
  rw [htr]
  refine ⟨fun k => ?_, fun t c => ?_, fun m => ?_, fun m => ?_⟩ <;> simp

/-- C7 witness: a concrete cancelled flow writes nothing, sends nothing
and alerts nothing. -/
theorem cancel_silent_spec_witness :
    (∀ k : Int, CEffect.storageWrite k ∉ (contentFlow ⟨false, "hi", none, some 7, none, false⟩).1) ∧
    (∀ (t : String) (c : Int),
      CEffect.sendGenerate t c ∉ (contentFlow ⟨false, "hi", none, some 7, none, false⟩).1) ∧
    (∀ m : String, CEffect.alertMsg m ∉ (contentFlow ⟨false, "hi", none, some 7, none, false⟩).1) := by
  have h := cancel_silent_spec ⟨false, "hi", none, some 7, none, false⟩ rfl rfl (by decide) rfl
  exact ⟨h.1, h.2.1, h.2.2.1⟩

/-- C8: with a selection present, the flow reads the preference store and
then shows the prompt pre-filled with the stored LastCount when a valid
one (an integer in [1,200]) is present and with the literal "20"
otherwise; and a valid answer writes the clamped count to the store after
the prompt, before contacting the backend. -/
theorem prompt_default_spec :
    ∀ env : CEnv, env.running = false → env.captureThrows = false →
      getSelectedTextModel env.winSel env.fieldSel ≠ "" →
      ((contentFlow env).1.take 3
        = [CEffect.overlayShow "Preparing your selection…" false, CEffect.storageRead,
           CEffect.promptShow (defaultCountStr env.stored)]) ∧
      (∀ n : Int, env.stored = some n → 0 < n → n ≤ 200 →
        defaultCountStr env.stored = toString n) ∧
      (env.stored = none → defaultCountStr env.stored = "20") ∧
      (∀ n : Int, env.stored = some n → ¬(0 < n ∧ n ≤ 200) →
        defaultCountStr env.stored = "20") ∧
      (∀ (s : String) (m : Int), env.promptRes = some s →
        parseIntB10 (jsTrim s) = some m →
        (contentFlow env).1
          = [CEffect.overlayShow "Preparing your selection…" false, CEffect.storageRead,
             CEffect.promptShow (defaultCountStr env.stored),
             CEffect.storageWrite (clampCount m),
             CEffect.overlayShow "Contacting CardifyAI and generating your flashcards…" false,
             CEffect.sendGenerate (getSelectedTextModel env.winSel env.fieldSel) (clampCount m)]) := by
  intro env h hc hs
  refine ⟨?_, fun n hn h1 h2 => ?_, fun hn => ?_, fun n hn hrange => ?_, fun s m hpr hparse => ?_⟩
  · rcases hpr : env.promptRes with _ | v
    · simp [contentFlow, h, hc, hs, hpr]
    · by_cases hv : jsTrim v = ""
      · simp [contentFlow, h, hc, hs, hpr, hv]
      · rcases hn : parseIntB10 (jsTrim v) with _ | n
        · simp [contentFlow, h, hc, hs, hpr, hv, hn]
        · simp [contentFlow, h, hc, hs, hpr, hv, hn]
  · simp [defaultCountStr, hn, h1, h2]
  · simp [defaultCountStr, hn]
  · have : ¬(0 < n && n ≤ 200) = true := by
      simp only [Bool.and_eq_true, decide_eq_true_eq]
      exact fun hand => hrange ⟨by exact_mod_cast hand.1, by exact_mod_cast hand.2⟩
    simp [defaultCountStr, hn, this]
  · have hv : jsTrim s ≠ "" := by
      intro he
      rw [he, parseIntB10_empty] at hparse
      exact Option.noConfusion hparse
    simp [contentFlow, h, hc, hs, hpr, hv, hparse]

/-- C8 witness: a concrete flow with stored LastCount 37 prompts with
default "37", and with no stored value prompts with "20"; the valid
answer "250" then writes the clamped 200 after prompting. -/
theorem prompt_default_spec_witness :
    ((contentFlow ⟨false, "hi", none, some 37, some "250", false⟩).1.take 3
      = [CEffect.overlayShow "Preparing your selection…" false, CEffect.storageRead,
         CEffect.promptShow (defaultCountStr (some 37))]) ∧
    defaultCountStr (some 37) = "37" ∧
    defaultCountStr none = "20" ∧
    defaultCountStr (some 500) = "20" ∧
    (contentFlow ⟨false, "hi", none, some 37, some "250", false⟩).1
      = [CEffect.overlayShow "Preparing your selection…" false, CEffect.storageRead,
         CEffect.promptShow (defaultCountStr (some 37)),
         CEffect.storageWrite 200,
         CEffect.overlayShow "Contacting CardifyAI and generating your flashcards…" false,
         CEffect.sendGenerate "hi" 200] := by
  have h := prompt_default_spec ⟨false, "hi", none, some 37, some "250", false⟩ rfl rfl (by decide)
  have h2 := prompt_default_spec ⟨false, "hi", none, none, some "250", false⟩ rfl rfl (by decide)
  have h3 := prompt_default_spec ⟨false, "hi", none, some 500, some "250", false⟩ rfl rfl (by decide)
  have htr := h.2.2.2.2 "250" 250 rfl (by decide)
  refine ⟨h.1, h.2.1 37 rfl (by decide) (by decide), h2.2.2.1 rfl,
    h3.2.2.2.1 500 rfl (by decide), ?_⟩
  have hcl : clampCount 250 = 200 := by decide
  have hsel : getSelectedTextModel "hi" none = "hi" := by decide
  rw [htr, hcl, hsel]
